import Mathlib

/-!
Shallow embedding of the real-time tone-generator core of the
notched-music repository (file src/src/tone_generator.py, class
TinnitusFrequencyIdentifier).  Python floats are modelled as real
numbers; the mutable object state is a record passed explicitly.
GUI-only effects (label text, canvas drawing, button colours) have no
bearing on the modelled fields and are omitted; the tk variable `set`
calls, which re-trigger the other slider callbacks, are modelled as
explicit recursive handler invocations cut off by the guard flags,
exactly as in the source.
-/

/-- State of the TinnitusFrequencyIdentifier object: the audio
parameters set in `__init__` (lines 31-39), the playback fields, the
guard flags of lines 47-50, and an instrumentation counter `opens`
recording how many output streams have been successfully constructed. -/
structure TGState where
  frequency : ℝ
  quality_factor : ℝ
  frequency_range_hz : ℝ
  frequency_range_octaves : ℝ
  is_playing : Bool
  audio_stream : Option ℕ
  opens : ℕ
  updating_q : Bool
  updating_hz : Bool
  updating_octave : Bool

/-- The state after `__init__`: frequency 1000.0, Q 30.0, Hz range 33.3,
octave range 0.1, not playing, no stream, all guard flags False. -/
noncomputable def initialState : TGState :=
  { frequency := 1000
    quality_factor := 30
    frequency_range_hz := 33.3
    frequency_range_octaves := 0.1
    is_playing := false
    audio_stream := none
    opens := 0
    updating_q := false
    updating_hz := false
    updating_octave := false }

/-- Fixed sample rate (`self.sample_rate = 44100`). -/
def sample_rate : ℕ := 44100

/-- Fixed base amplitude (`self.amplitude = 0.3`, never mutated). -/
noncomputable def amplitude : ℝ := 0.3

/-- `hz_to_octaves` (lines 453-456): `log2(1 + hz_range / self.frequency)`.
The `self.frequency` access is the first argument. -/
noncomputable def hz_to_octaves (frequency hz_range : ℝ) : ℝ :=
  Real.logb 2 (1 + hz_range / frequency)

/-- `octaves_to_hz` (lines 458-461): `self.frequency * (2**octave_range - 1)`. -/
noncomputable def octaves_to_hz (frequency octave_range : ℝ) : ℝ :=
  frequency * ((2 : ℝ) ^ octave_range - 1)

/-- The four slider callbacks, as events carrying the new slider value. -/
inductive Event where
  | freqChange (v : ℝ)
  | qChange (v : ℝ)
  | hzChange (v : ℝ)
  | octChange (v : ℝ)

/-- The slider callbacks `on_frequency_change`, `on_q_change`,
`on_hz_range_change`, `on_octave_range_change` (lines 376-442).  Setting
a tk variable re-fires the corresponding slider callback, so the
`hz_range_var.set` / `octave_range_var.set` / `q_var.set` calls are
modelled as recursive `handle` invocations on a decremented fuel; the
guard flags make every such nested invocation return immediately, so any
fuel of at least 1 at the top level gives the fixed behaviour.
`update_range_displays` only rewrites labels and is omitted. -/
noncomputable def handle : ℕ → Event → TGState → TGState
  | 0, _, st => st
  | _ + 1, Event.freqChange v, st =>
      { st with frequency := v }
  | fuel + 1, Event.qChange v, st =>
      if st.updating_q then st
      else
        let st1 := { st with updating_hz := true, updating_octave := true }
        let hz := st1.frequency / v
        let oct := hz_to_octaves st1.frequency hz
        let st2 := { st1 with quality_factor := v, frequency_range_hz := hz,
                              frequency_range_octaves := oct }
        let st3 := handle fuel (Event.hzChange hz) st2
        let st4 := handle fuel (Event.octChange oct) st3
        { st4 with updating_hz := false, updating_octave := false }
  | fuel + 1, Event.hzChange v, st =>
      if st.updating_hz then st
      else
        let st1 := { st with updating_q := true, updating_octave := true }
        let q := st1.frequency / v
        let oct := hz_to_octaves st1.frequency v
        let st2 := { st1 with frequency_range_hz := v, quality_factor := q,
                              frequency_range_octaves := oct }
        let st3 := handle fuel (Event.qChange q) st2
        let st4 := handle fuel (Event.octChange oct) st3
        { st4 with updating_q := false, updating_octave := false }
  | fuel + 1, Event.octChange v, st =>
      if st.updating_octave then st
      else
        let st1 := { st with updating_q := true, updating_hz := true }
        let hz := octaves_to_hz st1.frequency v
        let q := if hz > 0 then st1.frequency / hz else 1
        let st2 := { st1 with frequency_range_octaves := v,
                              frequency_range_hz := hz, quality_factor := q }
        let st3 := handle fuel (Event.qChange q) st2
        let st4 := handle fuel (Event.hzChange hz) st3
        { st4 with updating_q := false, updating_hz := false }

/-- `get_frequency_weighting` (lines 463-493): piecewise loudness
weighting, clamped to [0.1, 2.0] on the in-range branch. -/
noncomputable def get_frequency_weighting (frequency : ℝ) : ℝ :=
  if frequency < 20 ∨ frequency > 20000 then 0.1
  else
    let weight :=
      if frequency < 1000 then 1 + (1000 - frequency) / 1000 * 0.8
      else if frequency < 4000 then 1
      else 1 - (frequency - 4000) / 16000 * 0.6
    max 0.1 (min 2 weight)

/-- Outcome of the `sd.OutputStream(...)` construction followed by
`.start()` inside the `try` block of `start_playback`. -/
inductive DeviceOutcome where
  | openFails
  | startFails
  | ok
deriving DecidableEq

/-- `start_playback` (lines 521-540).  `newStream` is the handle the
`sd.OutputStream` constructor would return.  The whole body is inside
`try ... except Exception: self.is_playing = False`, so no error value
ever reaches the caller: the second component, the error surfaced to the
caller, is always `none`.  If the constructor raises, `audio_stream` is
never assigned; if `.start()` raises, the assignment has already
happened, so the new handle stays behind. -/
def start_playback (audioAvailable : Bool) (st : TGState) (newStream : ℕ)
    (outcome : DeviceOutcome) : TGState × Option String :=
  if audioAvailable = false then (st, none)
  else
    match outcome with
    | DeviceOutcome.openFails =>
        ({ st with is_playing := false }, none)
    | DeviceOutcome.startFails =>
        ({ st with is_playing := false, audio_stream := some newStream,
                   opens := st.opens + 1 }, none)
    | DeviceOutcome.ok =>
        ({ st with is_playing := true, audio_stream := some newStream,
                   opens := st.opens + 1 }, none)

/-- `stop_playback` (lines 542-550): sets `is_playing = False`; if a
stream is held, stops, closes and clears it. -/
def stop_playback (st : TGState) : TGState :=
  match st.audio_stream with
  | some _ => { st with is_playing := false, audio_stream := none }
  | none => { st with is_playing := false }

/-- Python float modulo for a positive modulus:
`x % y = x - y * floor(x / y)`. -/
noncomputable def fmod (x y : ℝ) : ℝ :=
  x - y * (Int.floor (x / y) : ℝ)

/-- The sweep-frequency computation of `audio_callback` (lines 561-577):
clamped band edges, 2-second sweep phase from the block ADC time, and
logarithmic interpolation, falling back to the centre frequency when the
band is degenerate. -/
noncomputable def currentFreq (st : TGState) (blockTime : ℝ) : ℝ :=
  let lower_freq := max 20 (st.frequency - st.frequency_range_hz)
  let upper_freq := min 20000 (st.frequency + st.frequency_range_hz)
  let sweep_phase := fmod blockTime 2 / 2
  if lower_freq > 0 ∧ upper_freq > lower_freq then
    (10 : ℝ) ^ (Real.logb 10 lower_freq
      + sweep_phase * (Real.logb 10 upper_freq - Real.logb 10 lower_freq))
  else st.frequency

/-- One sample of `audio_callback` (lines 579-602) at in-block time `t`:
weighted main tone plus, when `quality_factor > 1`, two phase-inverted
notch partials at 0.95 and 1.05 times the sweep frequency. -/
noncomputable def sampleAt (st : TGState) (blockTime : ℝ) (t : ℝ) : ℝ :=
  let cf := currentFreq st blockTime
  let frequency_weight := get_frequency_weighting cf
  let weighted_amplitude := amplitude * frequency_weight
  let main_tone := weighted_amplitude * Real.sin (2 * Real.pi * cf * t)
  if st.quality_factor > 1 then
    let q_factor := min (st.quality_factor / 100) 1
    let notch_depth := q_factor * 0.2
    main_tone
      + notch_depth * weighted_amplitude
          * Real.sin (2 * Real.pi * (cf * 0.95) * t + Real.pi)
      + notch_depth * weighted_amplitude
          * Real.sin (2 * Real.pi * (cf * 1.05) * t + Real.pi)
  else main_tone

/-- `audio_callback` (lines 552-606) as the block of samples it writes:
when playing, frame `i` carries the sample at in-block time
`i / sample_rate` (the `t = np.arange(frames) / self.sample_rate` of
line 559); when stopped, the block is filled with zeros. -/
noncomputable def audio_callback (st : TGState) (blockTime : ℝ)
    (frames : ℕ) : List ℝ :=
  if st.is_playing then
    List.map (fun i : ℕ => sampleAt st blockTime ((i : ℝ) / (sample_rate : ℝ)))
      (List.range frames)
  else List.replicate frames 0

/-- The weighting curve exactly as the spec states it, for comparison
with `get_frequency_weighting`: 0.1 out of range, three in-range pieces,
each in-range result clamped to [0.1, 2.0]. -/
noncomputable def spec_weighting (freq : ℝ) : ℝ :=
  if freq < 20 ∨ freq > 20000 then 0.1
  else if freq < 1000 then max 0.1 (min 2 (1 + (1000 - freq) / 1000 * 0.8))
  else if freq < 4000 then max 0.1 (min 2 1)
  else max 0.1 (min 2 (1 - (freq - 4000) / 16000 * 0.6))

/-- C4: get_frequency_weighting agrees with the piecewise definition of
the spec at every input, and takes the quoted values 1.0, 1.0, 0.4 and
0.1 at 1000, 4000, 20000 and 30000 Hz. -/
theorem C4_weighting_matches_spec :
    (∀ f : ℝ, get_frequency_weighting f = spec_weighting f) ∧
    get_frequency_weighting 1000 = 1 ∧
    get_frequency_weighting 4000 = 1 ∧
    get_frequency_weighting 20000 = 0.4 ∧
    get_frequency_weighting 30000 = 0.1 := by
  have hpt : ∀ f : ℝ, get_frequency_weighting f = spec_weighting f := by
    intro f
    simp only [get_frequency_weighting, spec_weighting]
    split_ifs <;> rfl
  refine ⟨hpt, ?_, ?_, ?_, ?_⟩
  · simp only [get_frequency_weighting]
    norm_num [max_def, min_def]
  · simp only [get_frequency_weighting]
    norm_num [max_def, min_def]
  · simp only [get_frequency_weighting]
    norm_num [max_def, min_def]
  · simp only [get_frequency_weighting]
    norm_num

/-- C3 counterexample: on_frequency_change applies no clamping.  With
input 10 the stored frequency is 10, while the claimed clamped value is
max 20 (min 20000 10) = 20. -/
theorem C3_counterexample :
    (handle 1 (Event.freqChange 10) initialState).frequency = 10 ∧
    (handle 1 (Event.freqChange 10) initialState).frequency ≠
      max 20 (min 20000 (10 : ℝ)) := by
  constructor
  · rfl
  · intro hc
    rw [show (handle 1 (Event.freqChange 10) initialState).frequency = 10 from rfl] at hc
    rw [show max 20 (min 20000 (10 : ℝ)) = 20 by norm_num [max_def, min_def]] at hc
    norm_num at hc

/-- C3 (amended): on_frequency_change stores the raw slider value as the
new centre frequency (the [20, 20000] restriction lives in the Scale
widget, not in the handler) and leaves quality_factor,
frequency_range_hz and frequency_range_octaves exactly unchanged. -/
theorem C3_frequency_change_frame (fuel : ℕ) (v : ℝ) (st : TGState) :
    (handle (fuel + 1) (Event.freqChange v) st).frequency = v ∧
    (handle (fuel + 1) (Event.freqChange v) st).quality_factor = st.quality_factor ∧
    (handle (fuel + 1) (Event.freqChange v) st).frequency_range_hz = st.frequency_range_hz ∧
    (handle (fuel + 1) (Event.freqChange v) st).frequency_range_octaves = st.frequency_range_octaves :=
  ⟨rfl, rfl, rfl, rfl⟩

/-- C1: for a centre frequency in [20, 20000] and q > 0, on_q_change
stores HzRange = f / q and OctaveRange = log2(1 + HzRange / f), restores
the guard flags, and the nested callbacks fired by the tk variable sets
return at their guards: the result with fuel 2 (one level of re-entry
allowed) equals the result with fuel 1 (no re-entry allowed). -/
theorem C1_on_q_change (st : TGState) (q : ℝ)
    (hq0 : st.updating_q = false)
    (hh0 : st.updating_hz = false)
    (ho0 : st.updating_octave = false)
    (hf1 : 20 ≤ st.frequency) (hf2 : st.frequency ≤ 20000) (hq : 0 < q) :
    handle 2 (Event.qChange q) st =
      { st with quality_factor := q,
                frequency_range_hz := st.frequency / q,
                frequency_range_octaves :=
                  Real.logb 2 (1 + st.frequency / q / st.frequency) } ∧
    handle 2 (Event.qChange q) st = handle 1 (Event.qChange q) st := by
  obtain ⟨f, qf, hz, oct, ip, ast, op, uq, uh, uo⟩ := st
  simp only at hq0 hh0 ho0
  subst hq0; subst hh0; subst ho0
  constructor
  · simp [handle, hz_to_octaves]
  · simp [handle]

/-- Witness for C1 at the initial state (f = 1000) with q = 30. -/
theorem C1_on_q_change_witness :
    initialState.updating_q = false ∧
    20 ≤ initialState.frequency ∧ initialState.frequency ≤ 20000 ∧
    (0 : ℝ) < 30 ∧
    handle 2 (Event.qChange 30) initialState =
      { initialState with
          quality_factor := 30,
          frequency_range_hz := initialState.frequency / 30,
          frequency_range_octaves :=
            Real.logb 2 (1 + initialState.frequency / 30 / initialState.frequency) } := by
  have h := C1_on_q_change initialState 30 rfl rfl rfl
    (by norm_num [initialState]) (by norm_num [initialState]) (by norm_num)
  exact ⟨rfl, by norm_num [initialState], by norm_num [initialState], by norm_num, h.1⟩

/-- C5: the conversion pair is an exact round trip over the reals: for
f at least 20 and h in (0, f], octaves_to_hz f (hz_to_octaves f h) = h. -/
theorem C5_octave_round_trip (f h : ℝ)
    (hf : 20 ≤ f) (h0 : 0 < h) (hhf : h ≤ f) :
    octaves_to_hz f (hz_to_octaves f h) = h := by
  have hfpos : (0 : ℝ) < f := lt_of_lt_of_le (by norm_num) hf
  have hx : (0 : ℝ) < 1 + h / f := by positivity
  simp only [octaves_to_hz, hz_to_octaves]
  rw [Real.rpow_logb (by norm_num) (by norm_num) hx]
  field_simp

/-- Witness for C5 at f = 1000, h = 500. -/
theorem C5_octave_round_trip_witness :
    (20 : ℝ) ≤ 1000 ∧ (0 : ℝ) < 500 ∧ (500 : ℝ) ≤ 1000 ∧
    octaves_to_hz 1000 (hz_to_octaves 1000 500) = 500 :=
  ⟨by norm_num, by norm_num, by norm_num,
   C5_octave_round_trip 1000 500 (by norm_num) (by norm_num) (by norm_num)⟩

/-- A Playing-state parameter snapshot with centre 1000 Hz, a degenerate
band (Hz range 0, so the sweep falls back to the centre frequency) and
Q = 1 (no notch partials). -/
noncomputable def c2State : TGState :=
  { initialState with frequency_range_hz := 0, quality_factor := 1,
                      is_playing := true }

/-- C2 counterexample: the callback indexes the sine at block-local time
i / sample_rate, not blockStart + i / sample_rate.  At block ADC time
1/4000 with a constant 1000 Hz tone, frame 0 of the written block is
0.3 * sin 0 = 0, while the claimed value 0.3 * sin(2 pi 1000 (1/4000 + 0))
is 0.3 * sin(pi/2) = 0.3. -/
theorem C2_counterexample :
    (audio_callback c2State (1 / 4000) 1).headI = 0 ∧
    amplitude * get_frequency_weighting (currentFreq c2State (1 / 4000)) *
      Real.sin (2 * Real.pi * currentFreq c2State (1 / 4000) *
        (1 / 4000 + ((0 : ℕ) : ℝ) / (sample_rate : ℝ))) = 0.3 ∧
    (0 : ℝ) ≠ 0.3 := by
  have hcf : currentFreq c2State (1 / 4000) = 1000 := by
    simp only [currentFreq]
    rw [show c2State.frequency = 1000 from rfl,
        show c2State.frequency_range_hz = 0 from rfl]
    norm_num [max_def, min_def]
  have hw : get_frequency_weighting (1000 : ℝ) = 1 := by
    simp only [get_frequency_weighting]
    norm_num [max_def, min_def]
  refine ⟨?_, ?_, by norm_num⟩
  · have hlist : audio_callback c2State (1 / 4000) 1 =
        [sampleAt c2State (1 / 4000) (((0 : ℕ) : ℝ) / (sample_rate : ℝ))] := by
      simp only [audio_callback]
      rw [if_pos (show c2State.is_playing = true from rfl)]
      rw [show List.range 1 = [0] from rfl]
      simp only [List.map_cons, List.map_nil]
    rw [hlist]
    simp only [List.headI]
    simp only [sampleAt]
    rw [if_neg (show ¬ c2State.quality_factor > 1 by
      rw [show c2State.quality_factor = (1 : ℝ) from rfl]; norm_num)]
    norm_num [Real.sin_zero]
  · rw [hcf, hw]
    have harg : 2 * Real.pi * 1000 *
        (1 / 4000 + ((0 : ℕ) : ℝ) / (sample_rate : ℝ)) = Real.pi / 2 := by
      push_cast
      ring
    rw [harg, Real.sin_pi_div_two]
    rw [show amplitude = (0.3 : ℝ) from rfl]
    norm_num

/-- C2 (amended): in the Playing state the callback writes, for every
frame i of an n-frame block and every snapshot, the sample at
block-local time i / sample_rate (the block start time enters only
through the sweep phase, never through the oscillator time): the main
tone is the weighted amplitude times sin(2 pi current_freq
(i / sample_rate)), and when quality_factor > 1 the two phase-inverted
notch partials, also at block-local time, are added. -/
theorem C2_block_local_time (st : TGState) (blockTime : ℝ) (n i : ℕ)
    (hi : i < n) (hp : st.is_playing = true) :
    (audio_callback st blockTime n).getD i 0 =
      amplitude * get_frequency_weighting (currentFreq st blockTime) *
        Real.sin (2 * Real.pi * currentFreq st blockTime *
          ((i : ℝ) / (sample_rate : ℝ)))
      + (if st.quality_factor > 1 then
          min (st.quality_factor / 100) 1 * 0.2 *
            (amplitude * get_frequency_weighting (currentFreq st blockTime)) *
            Real.sin (2 * Real.pi * (currentFreq st blockTime * 0.95) *
              ((i : ℝ) / (sample_rate : ℝ)) + Real.pi)
          + min (st.quality_factor / 100) 1 * 0.2 *
            (amplitude * get_frequency_weighting (currentFreq st blockTime)) *
            Real.sin (2 * Real.pi * (currentFreq st blockTime * 1.05) *
              ((i : ℝ) / (sample_rate : ℝ)) + Real.pi)
        else 0) := by
  simp only [audio_callback]
  rw [if_pos hp]
  rw [List.getD_eq_getElem?_getD, List.getElem?_map, List.getElem?_range hi]
  simp only [Option.map_some', Option.getD_some]
  simp only [sampleAt]
  split_ifs with hq
  · ring
  · ring

/-- The initial snapshot switched to Playing: centre 1000 Hz, Hz range
33.3 and the default Q = 30, so the notch branch is active. -/
noncomputable def c2PlayState : TGState :=
  { initialState with is_playing := true }

/-- Witness for C2 (amended) at the default Playing snapshot (Q = 30,
notch regime), block time 0, one frame, frame index 0. -/
theorem C2_block_local_time_witness :
    0 < 1 ∧ c2PlayState.is_playing = true ∧
    (audio_callback c2PlayState 0 1).getD 0 0 =
      amplitude * get_frequency_weighting (currentFreq c2PlayState 0) *
        Real.sin (2 * Real.pi * currentFreq c2PlayState 0 *
          (((0 : ℕ) : ℝ) / (sample_rate : ℝ)))
      + (if c2PlayState.quality_factor > 1 then
          min (c2PlayState.quality_factor / 100) 1 * 0.2 *
            (amplitude * get_frequency_weighting (currentFreq c2PlayState 0)) *
            Real.sin (2 * Real.pi * (currentFreq c2PlayState 0 * 0.95) *
              (((0 : ℕ) : ℝ) / (sample_rate : ℝ)) + Real.pi)
          + min (c2PlayState.quality_factor / 100) 1 * 0.2 *
            (amplitude * get_frequency_weighting (currentFreq c2PlayState 0)) *
            Real.sin (2 * Real.pi * (currentFreq c2PlayState 0 * 1.05) *
              (((0 : ℕ) : ℝ) / (sample_rate : ℝ)) + Real.pi)
        else 0) :=
  ⟨by norm_num, rfl, C2_block_local_time c2PlayState 0 1 0 (by norm_num) rfl⟩

/-- C6 counterexample: when start() on the freshly constructed stream
fails, the caller receives no error at all (the claim says a DeviceError
is surfaced) and the stored handle has changed from none to the new
stream (the claim says it is unchanged). -/
theorem C6_counterexample :
    (start_playback true initialState 1 DeviceOutcome.startFails).2 = none ∧
    (start_playback true initialState 1 DeviceOutcome.startFails).1.audio_stream = some 1 ∧
    initialState.audio_stream = none :=
  ⟨rfl, rfl, rfl⟩

/-- C6 (amended): on stream open or start failure, start_playback
surfaces nothing to its caller (the except clause swallows the
exception) and resets is_playing to false; the stream handle is
unchanged when the constructor itself fails, but is left pointing at the
new stream when start() on the constructed stream fails. -/
theorem C6_start_failure (st : TGState) (ns : ℕ) :
    (start_playback true st ns DeviceOutcome.openFails).2 = none ∧
    (start_playback true st ns DeviceOutcome.startFails).2 = none ∧
    (start_playback true st ns DeviceOutcome.openFails).1.is_playing = false ∧
    (start_playback true st ns DeviceOutcome.startFails).1.is_playing = false ∧
    (start_playback true st ns DeviceOutcome.openFails).1.audio_stream = st.audio_stream ∧
    (start_playback true st ns DeviceOutcome.startFails).1.audio_stream = some ns :=
  ⟨rfl, rfl, rfl, rfl, rfl, rfl⟩

/-- C7 counterexample: two consecutive successful start() calls from the
initial state construct and start two output streams (the claim says
exactly one device session is opened): the open count reaches 2 and the
first stream handle is overwritten without being closed. -/
theorem C7_counterexample :
    ((start_playback true (start_playback true initialState 1 DeviceOutcome.ok).1
        2 DeviceOutcome.ok).1).opens = 2 ∧
    ((start_playback true (start_playback true initialState 1 DeviceOutcome.ok).1
        2 DeviceOutcome.ok).1).opens ≠ 1 ∧
    (start_playback true initialState 1 DeviceOutcome.ok).1.audio_stream = some 1 ∧
    ((start_playback true (start_playback true initialState 1 DeviceOutcome.ok).1
        2 DeviceOutcome.ok).1).audio_stream = some 2 :=
  ⟨rfl, by decide, rfl, rfl⟩

/-- C7 (amended): start_playback does not check is_playing, so two
successful start() calls in a row open two device sessions, the second
overwriting the stored handle of the first without closing it; stop()
with no prior start() (Stopped, no stream held) is a safe no-op leaving
the whole state unchanged. -/
theorem C7_start_twice_stop_noop (st : TGState) (s1 s2 : ℕ)
    (hp : st.is_playing = false) (hs : st.audio_stream = none) :
    ((start_playback true (start_playback true st s1 DeviceOutcome.ok).1
        s2 DeviceOutcome.ok).1).opens = st.opens + 2 ∧
    ((start_playback true (start_playback true st s1 DeviceOutcome.ok).1
        s2 DeviceOutcome.ok).1).audio_stream = some s2 ∧
    (start_playback true st s1 DeviceOutcome.ok).1.audio_stream = some s1 ∧
    stop_playback st = st := by
  obtain ⟨f, qf, hz, oct, ip, ast, op, uq, uh, uo⟩ := st
  simp only at hp hs
  subst hp; subst hs
  exact ⟨rfl, rfl, rfl, rfl⟩

/-- Witness for C7 (amended) at the initial state with stream ids 1, 2. -/
theorem C7_start_twice_stop_noop_witness :
    initialState.is_playing = false ∧ initialState.audio_stream = none ∧
    ((start_playback true (start_playback true initialState 1 DeviceOutcome.ok).1
        2 DeviceOutcome.ok).1).opens = initialState.opens + 2 ∧
    stop_playback initialState = initialState :=
  ⟨rfl, rfl, (C7_start_twice_stop_noop initialState 1 2 rfl rfl).1,
   (C7_start_twice_stop_noop initialState 1 2 rfl rfl).2.2.2⟩

/-- Clamping to [0.1, 2] lands in [0.1, 2] whatever the input. -/
theorem clamp_bounds (w : ℝ) :
    0.1 ≤ max 0.1 (min 2 w) ∧ max 0.1 (min 2 w) ≤ 2 :=
  ⟨le_max_left _ _, max_le (by norm_num) (min_le_left _ _)⟩

/-- The weighting curve always lies in [0.1, 2]. -/
theorem weighting_bounds (x : ℝ) :
    0.1 ≤ get_frequency_weighting x ∧ get_frequency_weighting x ≤ 2 := by
  simp only [get_frequency_weighting]
  split_ifs
  case _ => norm_num
  all_goals exact clamp_bounds _

/-- A product of a nonnegative coefficient and a sine is bounded in
absolute value by the coefficient. -/
theorem abs_coef_mul_sin_le (c x : ℝ) (hc : 0 ≤ c) : |c * Real.sin x| ≤ c := by
  rw [abs_mul, abs_of_nonneg hc]
  have h1 := Real.abs_sin_le_one x
  nlinarith [abs_nonneg (Real.sin x)]

/-- C10: every sample the synthesis path computes has absolute value at
most 0.84 = 0.3 * 2.0 * (1 + 2 * 0.2): base amplitude 0.3, weighting at
most 2, main tone plus two notch partials of depth at most 0.2 each — so
the written block stays inside the [-1, 1] device range even though no
clipping guard is applied. -/
theorem C10_sample_bound (st : TGState) (blockTime t : ℝ) :
    |sampleAt st blockTime t| ≤ 0.84 := by
  simp only [sampleAt]
  set cf := currentFreq st blockTime with hcfd
  obtain ⟨hw1, hw2⟩ := weighting_bounds cf
  set w := get_frequency_weighting cf with hwd
  have hw0 : (0 : ℝ) ≤ w := by linarith
  have hA0 : (0 : ℝ) ≤ amplitude * w := by
    rw [show amplitude = (0.3 : ℝ) from rfl]
    linarith
  have hc1 : amplitude * w ≤ 0.6 := by
    rw [show amplitude = (0.3 : ℝ) from rfl]
    linarith
  have e1 := abs_coef_mul_sin_le (amplitude * w) (2 * Real.pi * cf * t) hA0
  split_ifs with hq
  · set d := min (st.quality_factor / 100) 1 * 0.2 with hdd
    have hd0 : (0 : ℝ) ≤ d := by
      rw [hdd]
      have hm : (0 : ℝ) ≤ min (st.quality_factor / 100) 1 :=
        le_min (by linarith) (by norm_num)
      linarith
    have hd1 : d ≤ 0.2 := by
      rw [hdd]
      have hm := min_le_right (st.quality_factor / 100) (1 : ℝ)
      linarith
    have e2 := abs_coef_mul_sin_le (d * (amplitude * w))
      (2 * Real.pi * (cf * 0.95) * t + Real.pi) (mul_nonneg hd0 hA0)
    have e3 := abs_coef_mul_sin_le (d * (amplitude * w))
      (2 * Real.pi * (cf * 1.05) * t + Real.pi) (mul_nonneg hd0 hA0)
    have hc2 : d * (amplitude * w) ≤ 0.2 * 0.6 :=
      mul_le_mul hd1 hc1 hA0 (by norm_num)
    have t1 := abs_add
      (amplitude * w * Real.sin (2 * Real.pi * cf * t)
        + d * (amplitude * w) * Real.sin (2 * Real.pi * (cf * 0.95) * t + Real.pi))
      (d * (amplitude * w) * Real.sin (2 * Real.pi * (cf * 1.05) * t + Real.pi))
    have t2 := abs_add
      (amplitude * w * Real.sin (2 * Real.pi * cf * t))
      (d * (amplitude * w) * Real.sin (2 * Real.pi * (cf * 0.95) * t + Real.pi))
    linarith
  · linarith
